import Mathlib

/-!
Verification of the dnf system-upgrade plugin (src/system_upgrade.py)
against its natural-language specification.

The development shallowly embeds the plugin's persistent state machine:
the persisted JSON state record (class State), the phase guards
(check_download, check_reboot, check_upgrade), and the phase bodies
(run_download, run_reboot, run_upgrade, run_clean, transaction_download,
transaction_upgrade).  External collaborators (the dnf package resolver,
plymouth, systemctl) are modelled only through their observable inputs
to this layer: whether the external transaction succeeded and which
package names its install set contains.
-/

set_option maxHeartbeats 1000000

-- ===========================================================================
-- Constants (module-level constants of system_upgrade.py)
-- ===========================================================================

/-- DEFAULT_DATADIR = "/var/lib/dnf/system-upgrade" -/
def DEFAULT_DATADIR : String := "/var/lib/dnf/system-upgrade"

/-- MAGIC_SYMLINK = "/system-update" -/
def MAGIC_SYMLINK : String := "/system-update"

-- ===========================================================================
-- Persisted state record
-- ===========================================================================

/-- The five persisted fields of the State object, one per property
created with the prop helper in system_upgrade.py (lines 91-105):
download.status, download.datadir, download.releasever, upgrade.status,
upgrade.distro-sync.  Each getter returns
self.\_data.setdefault(section, \x7b\x7d).get(option), i.e. none when the
section or option is absent, so every field is an Option. -/
structure StateData where
  download_status : Option String
  datadir : Option String
  releasever : Option String
  upgrade_status : Option String
  distro_sync : Option Bool
deriving DecidableEq, Repr

/-- The empty state: data = \x7b\x7d, every property getter returns None. -/
def State.empty : StateData :=
  { download_status := none, datadir := none, releasever := none,
    upgrade_status := none, distro_sync := none }

-- ===========================================================================
-- The filesystem world visible to this layer
-- ===========================================================================

/-- The parts of the filesystem the plugin reads and writes:
the state file (parsed content, none when absent), the magic symlink
(its target, none when the link does not exist), the flag file content,
and directory contents / existence / is-directory predicates for paths. -/
structure FS where
  statefile : Option StateData
  symlink : Option String
  flagfile : Option String
  dirContents : String → List String
  pathExists : String → Bool
  isDir : String → Bool

/-- State loading at process start (State.init calls State.read):
json.load the state file, giving the committed record, or the empty
record when the file is absent.  (The corrupt / unreadable cases are
modelled separately by State.readData below.) -/
def State.load (w : FS) : StateData :=
  w.statefile.getD State.empty

-- ===========================================================================
-- Python exceptions relevant to this layer
-- ===========================================================================

/-- Exception classes this layer can observe.  valueError stands for
ValueError (json.JSONDecodeError is a subclass); ioError for IOError
(= OSError, covering absence and e.g. permission failures); osError for
an OSError raised by os.readlink; typeError for os.symlink given None. -/
inductive PyExc
  | ioError
  | valueError
  | osError
  | typeError
deriving DecidableEq, Repr

-- ===========================================================================
-- State.read with full read-outcome fidelity (for the load contract)
-- ===========================================================================

/-- The possible raw outcomes of opening and reading the state file. -/
inductive FileRead
  | absent
  | unreadable
  | valid (d : StateData)
  | corrupt
deriving DecidableEq, Repr

/-- Result of the read method: either an in-memory record or a raised
exception. -/
inductive ReadOutcome
  | ok (d : StateData)
  | raises (e : PyExc)
deriving DecidableEq, Repr

/-- Models State.\_read (lines 68-72):
try: self.\_data = json.load(open(self.statefile))
except IOError: self.\_data = \x7b\x7d
Opening an absent file raises IOError (caught, empty record); a read
failing with IOError for any other reason, e.g. permissions, is caught
the same way (empty record); json.load on a corrupt file raises
ValueError, which is not caught and propagates. -/
def State.readData (f : FileRead) : ReadOutcome :=
  match f with
  | FileRead.absent => ReadOutcome.ok State.empty
  | FileRead.unreadable => ReadOutcome.ok State.empty
  | FileRead.valid d => ReadOutcome.ok d
  | FileRead.corrupt => ReadOutcome.raises PyExc.valueError

-- ===========================================================================
-- State.write at storage granularity (for the atomicity claim)
-- ===========================================================================

/-- Models State.write (lines 74-77) at the granularity of on-disk
content: open(self.statefile, "w") first truncates the file to empty
content, then json.dump writes the serialized record.  The list is the
sequence of on-disk contents observable if the process is interrupted
before, between, or after the two steps (old content, truncated empty
content, new content).  There is no temp-file-and-rename step. -/
def State.writeSteps (old : Option String) (new : String) : List (Option String) :=
  [old, some "", some new]

-- ===========================================================================
-- The scoped state handle (State.enter / State.exit)
-- ===========================================================================

/-- A single field assignment through one of the five property setters. -/
inductive Mut
  | setDownloadStatus (v : String)
  | setDatadir (v : String)
  | setReleasever (v : String)
  | setUpgradeStatus (v : String)
  | setDistroSync (v : Bool)
deriving DecidableEq, Repr

/-- Apply one property assignment to the in-memory record. -/
def applyMut (s : StateData) : Mut → StateData
  | Mut.setDownloadStatus v => { s with download_status := some v }
  | Mut.setDatadir v => { s with datadir := some v }
  | Mut.setReleasever v => { s with releasever := some v }
  | Mut.setUpgradeStatus v => { s with upgrade_status := some v }
  | Mut.setDistroSync v => { s with distro_sync := some v }

/-- Models State.\_\_exit\_\_ (lines 87-89): if exc_type is None the
handle writes the in-memory record to the state file; on an exception
it writes nothing and the exception propagates.  Arguments: the
exception (none on clean exit), the in-memory record at scope exit, and
the persisted file content before the scope. -/
def State.exitScope (excType : Option PyExc) (mem : StateData)
    (file : Option StateData) : Option StateData :=
  match excType with
  | none => some mem
  | some _ => file

/-- A whole scoped block: the in-memory record is the one loaded at
process start (the file content, or empty), the listed mutations run
inside the scope, and the block exits with excType.  Returns the
persisted file content after the scope. -/
def withState (file : Option StateData) (muts : List Mut)
    (excType : Option PyExc) : Option StateData :=
  State.exitScope excType (muts.foldl applyMut (file.getD State.empty)) file

-- ===========================================================================
-- Phase guards
-- ===========================================================================

/-- The specific classified deny reasons the guards raise. -/
inductive GuardReason
  | notReadyForUpgrade
  | alreadyScheduled
  | useRebootFirst
  | sameReleaseVer
  | pathConflict
deriving DecidableEq, Repr

/-- Result of running a guard: proceed, a classified CliError deny, the
quiet SystemExit(0) path, or an unclassified uncaught OSError. -/
inductive GuardResult
  | allow
  | cliError (r : GuardReason)
  | quietExit
  | osError
deriving DecidableEq, Repr

/-- Command-line options of the download action. -/
structure Opts where
  distro_sync : Bool
  datadir : String
deriving DecidableEq, Repr

/-- Models check_download (lines 274-278): checkReleaseVer raises
CliError when the detected release version equals conf.releasever;
checkDataDir raises CliError when the datadir path exists and is not a
directory.  (checkGPGKey and checkEnabledRepo are external dnf checks,
also raising classified CliError, and are not modelled.) -/
def check_download (opts : Opts) (detected confReleasever : String)
    (w : FS) : GuardResult :=
  if detected = confReleasever then GuardResult.cliError GuardReason.sameReleaseVer
  else if w.pathExists opts.datadir && !(w.isDir opts.datadir) then
    GuardResult.cliError GuardReason.pathConflict
  else GuardResult.allow

/-- Models check_reboot (lines 280-284): raise CliError unless
download_status == "complete"; raise CliError if the magic symlink
already lexists. -/
def check_reboot (s : StateData) (symlink : Option String) : GuardResult :=
  if ¬(s.download_status = some "complete") then
    GuardResult.cliError GuardReason.notReadyForUpgrade
  else if symlink.isSome then
    GuardResult.cliError GuardReason.alreadyScheduled
  else GuardResult.allow

/-- Models check_upgrade (lines 286-292): raise CliError unless
upgrade_status == "ready"; then os.readlink(MAGIC_SYMLINK) — which
raises an uncaught OSError when no symlink exists — and when the link
target differs from state.datadir, log and raise SystemExit(0)
(the quiet exit). -/
def check_upgrade (s : StateData) (symlink : Option String) : GuardResult :=
  if ¬(s.upgrade_status = some "ready") then
    GuardResult.cliError GuardReason.useRebootFirst
  else
    match symlink with
    | none => GuardResult.osError
    | some target =>
      if ¬(some target = s.datadir) then GuardResult.quietExit
      else GuardResult.allow

-- ===========================================================================
-- Phase outcomes
-- ===========================================================================

/-- Outcome of running a whole phase. -/
inductive Outcome
  | success
  | guardDenied (r : GuardReason)
  | quietExit
  | osError
  | typeError
  | txFailed
  | noKernel
deriving DecidableEq, Repr

/-- Mapping a non-allow guard result to the phase outcome. -/
def Outcome.ofGuard : GuardResult → Outcome
  | GuardResult.allow => Outcome.success
  | GuardResult.cliError r => Outcome.guardDenied r
  | GuardResult.quietExit => Outcome.quietExit
  | GuardResult.osError => Outcome.osError

-- ===========================================================================
-- Phase bodies
-- ===========================================================================

/-- dnf.util.ensure_dir: create the directory (and parents) at the
path, so afterwards the path exists and is a directory. -/
def ensure_dir (w : FS) (d : String) : FS :=
  { w with pathExists := fun p => if p = d then true else w.pathExists p,
           isDir := fun p => if p = d then true else w.isDir p }

/-- The directories State.write can create: State.write (line 75) runs
dnf.util.ensure_dir(os.path.dirname(self.statefile)), and with
statefile = "/var/lib/dnf/system-upgrade.json" the os.makedirs inside
ensure_dir creates every missing ancestor of "/var/lib/dnf": "/var",
"/var/lib" and "/var/lib/dnf" itself. -/
def statefileDirParents : List String := ["/var", "/var/lib", "/var/lib/dnf"]

/-- Create each directory in the list (os.makedirs creating a chain of
ancestors, outermost first). -/
def ensure_dirs (w : FS) (ds : List String) : FS := ds.foldl ensure_dir w

/-- Python string interpolation "%s" applied to a possibly-None value:
None prints as "None". -/
def pyStr (v : Option String) : String :=
  match v with
  | none => "None"
  | some s => s

/-- Models run_download (lines 307-320): mark everything for
upgrade/distro-sync (external, no effect on this layer), ensure_dir on
the datadir only when it is the built-in default, then inside the
scoped state handle set download_status = "downloading", releasever =
conf.releasever, datadir = opts.datadir; the scope exits cleanly, so
State.write commits the record — and State.write itself first calls
dnf.util.ensure_dir(os.path.dirname(self.statefile)) (line 75),
creating the missing ancestors "/var", "/var/lib", "/var/lib/dnf" of
the state file path, before dumping the record.  That directory
creation is a filesystem effect of every clean commit; it is modelled
here, where directory creation is the observable at issue, while the
other commit sites are modelled at state-content granularity.
Returns the new world and the in-memory record. -/
def run_download (s : StateData) (w : FS) (opts : Opts)
    (confReleasever : String) : FS × StateData :=
  let w1 := if opts.datadir = DEFAULT_DATADIR then ensure_dir w opts.datadir else w
  let s1 := { s with download_status := some "downloading",
                     releasever := some confReleasever,
                     datadir := some opts.datadir }
  let w2 := ensure_dirs w1 statefileDirParents
  ({ w2 with statefile := some s1 }, s1)

/-- Models transaction_download (lines 363-372): after a successful
external transaction, if no package in the install set has a name
starting with "kernel", raise dnf.exceptions.Error (NO_KERNEL_MSG)
before touching the state; otherwise commit download_status =
"complete" and distro_sync = opts.distro_sync through the scoped
handle. -/
def transaction_download (s : StateData) (w : FS) (installSet : List String)
    (opts : Opts) : FS × Outcome :=
  if !(installSet.any fun p => p.startsWith "kernel") then
    (w, Outcome.noKernel)
  else
    let s1 := { s with download_status := some "complete",
                       distro_sync := some opts.distro_sync }
    ({ w with statefile := some s1 }, Outcome.success)

/-- The whole download invocation: guard (check_download), then
run_download (which commits the "downloading" record), then the
external resolve/download/test-transaction step (succeeding iff tx),
then on success the transaction_download hook with the external
install set. -/
def downloadPhase (w : FS) (opts : Opts) (confReleasever detected : String)
    (tx : Bool) (installSet : List String) : FS × Outcome :=
  match check_download opts detected confReleasever w with
  | GuardResult.allow =>
    let ws := run_download (State.load w) w opts confReleasever
    if tx then transaction_download ws.snd ws.fst installSet opts
    else (ws.fst, Outcome.txFailed)
  | r => (w, Outcome.ofGuard r)

/-- Models run_reboot (lines 296-305) guarded by check_reboot: create
the magic symlink pointing at state.datadir (os.symlink raises
TypeError if datadir is None), write "RELEASEVER=<releasever>\n" into
the flag file, commit upgrade_status = "ready" through the scoped
handle, and finally call reboot() — the returned world is the one
observable just before that restart call. -/
def rebootPhase (w : FS) : FS × Outcome :=
  match check_reboot (State.load w) w.symlink with
  | GuardResult.allow =>
    match (State.load w).datadir with
    | none => (w, Outcome.typeError)
    | some d =>
      let w1 := { w with symlink := some d }
      let w2 := { w1 with flagfile := some ("RELEASEVER=" ++ pyStr (State.load w).releasever ++ "\n") }
      let s1 := { State.load w with upgrade_status := some "ready" }
      ({ w2 with statefile := some s1 }, Outcome.success)
  | r => (w, Outcome.ofGuard r)

/-- Models run_clean (lines 355-359): if state.datadir is truthy (set
and non-empty), dnf.util.clear_dir empties that directory; then
State.clear unlinks the state file and re-reads (empty record). -/
def run_clean (w : FS) : FS :=
  let s := State.load w
  let w1 :=
    match s.datadir with
    | some d =>
      if d = "" then w
      else { w with dirContents := fun p => if p = d then [] else w.dirContents p }
    | none => w
  { w1 with statefile := none }

/-- Models run_upgrade (lines 322-353) guarded by check_upgrade, plus
the transaction_upgrade hook (lines 374-377): delete the magic symlink
first (unlink_f, idempotent), commit upgrade_status = "incomplete"
through the scoped handle, then load the downloaded rpms and run the
external offline transaction (succeeding iff tx).  On success
transaction_upgrade runs run_clean and then reboots; on failure the
state stays "incomplete". -/
def upgradePhase (w : FS) (tx : Bool) : FS × Outcome :=
  match check_upgrade (State.load w) w.symlink with
  | GuardResult.allow =>
    let s := State.load w
    let w1 := { w with symlink := none }
    let s1 := { s with upgrade_status := some "incomplete" }
    let w2 := { w1 with statefile := some s1 }
    if tx then (run_clean w2, Outcome.success)
    else (w2, Outcome.txFailed)
  | r => (w, Outcome.ofGuard r)

-- ===========================================================================
-- Concrete worlds and options used in counterexamples and witnesses
-- ===========================================================================

/-- A fresh world: no state file, no symlink, no flag file, empty
directories, no paths exist. -/
def fsEmpty : FS :=
  { statefile := none, symlink := none, flagfile := none,
    dirContents := fun _ => [], pathExists := fun _ => false,
    isDir := fun _ => false }

/-- The default command-line options of the download action. -/
def optsDefault : Opts := { distro_sync := false, datadir := DEFAULT_DATADIR }

/-- Download options with a user-supplied non-default datadir. -/
def optsCustom : Opts := { distro_sync := false, datadir := "/custom" }

/-- A state whose upgrade status is "ready" (as committed by the reboot
phase). -/
def readyNoMarker : StateData := { State.empty with upgrade_status := some "ready" }

/-- A world in which upgrade_status = "ready" is committed but the magic
symlink points somewhere other than the recorded datadir. -/
def staleWorld : FS :=
  { statefile := some readyNoMarker,
    symlink := some "/elsewhere", flagfile := none,
    dirContents := fun _ => [], pathExists := fun _ => false,
    isDir := fun _ => false }

/-- A world ready for the reboot phase: download complete, datadir and
releasever recorded, no symlink armed yet. -/
def rebootReadyWorld : FS :=
  { statefile := some { download_status := some "complete",
                        datadir := some "/var/lib/dnf/system-upgrade",
                        releasever := some "40",
                        upgrade_status := none,
                        distro_sync := some false },
    symlink := none, flagfile := none,
    dirContents := fun _ => [], pathExists := fun _ => false,
    isDir := fun _ => false }

/-- A world as left by a successful reboot phase: marker armed at the
recorded datadir, upgrade_status = "ready" committed. -/
def armedWorld : FS :=
  { statefile := some { download_status := some "complete",
                        datadir := some "/var/lib/dnf/system-upgrade",
                        releasever := some "40",
                        upgrade_status := some "ready",
                        distro_sync := some false },
    symlink := some "/var/lib/dnf/system-upgrade",
    flagfile := some "RELEASEVER=40\n",
    dirContents := fun _ => [], pathExists := fun _ => false,
    isDir := fun _ => false }

/-- A world with a committed datadir whose directory holds one file. -/
def cleanStartWorld : FS :=
  { statefile := some { State.empty with
                        download_status := some "complete",
                        datadir := some "/data" },
    symlink := none, flagfile := none,
    dirContents := fun _ => ["pkg.rpm"], pathExists := fun _ => true,
    isDir := fun _ => true }

-- ===========================================================================
-- Shared helper lemmas
-- ===========================================================================

/-- Mapping a guard result to an outcome yields success only for allow. -/
theorem lem_ofGuard_success (r : GuardResult) :
    Outcome.ofGuard r = Outcome.success ↔ r = GuardResult.allow := by
  cases r <;> simp [Outcome.ofGuard]

/-- run_clean does not touch the magic symlink. -/
theorem lem_run_clean_symlink (w : FS) : (run_clean w).symlink = w.symlink := by
  unfold run_clean
  cases h : (State.load w).datadir with
  | none => simp [h]
  | some d => by_cases hd : d = "" <;> simp [h, hd]

-- ===========================================================================
-- Claim C1 — no partial commit on download failure
-- ===========================================================================

/-- Claim C1 counterexample.  The claim states that when the external
download transaction step fails, download.status after the failed phase
equals its value before the phase started, for every prior state.  This
is false: run_download already commits download_status = "downloading"
(together with releasever and datadir) through the scoped state handle
before the external transaction step runs, so after a failed transaction
the persisted status is "downloading", not the prior value.  Concrete
input: fresh world (no state file, prior status none), default options,
conf releasever "40", detected "39", transaction fails. -/
theorem C1_download_status_not_restored :
    (downloadPhase fsEmpty optsDefault "40" "39" false []).snd = Outcome.txFailed ∧
    (State.load fsEmpty).download_status = none ∧
    (State.load (downloadPhase fsEmpty optsDefault "40" "39" false []).fst).download_status
      = some "downloading" := by
  decide

/-- Claim C1 (amended): if the external download transaction step fails
(including the NoKernelFound case), the failing step itself commits
nothing: download.status after the failed phase equals "downloading" —
the value committed by run_download at the start of the phase, before
the external step — and in particular never reaches "complete". -/
theorem C1_failed_download_leaves_downloading (w : FS) (opts : Opts)
    (rv det : String) (tx : Bool) (pkgs : List String)
    (hg : check_download opts det rv w = GuardResult.allow)
    (hfail : tx = false ∨ (pkgs.any fun p => p.startsWith "kernel") = false) :
    (State.load (downloadPhase w opts rv det tx pkgs).fst).download_status
      = some "downloading" ∧
    (State.load (downloadPhase w opts rv det tx pkgs).fst).download_status
      ≠ some "complete" := by
  have h : (State.load (downloadPhase w opts rv det tx pkgs).fst).download_status
      = some "downloading" := by
    unfold downloadPhase
    rw [hg]
    rcases hfail with h | h
    · subst h
      simp [run_download, State.load]
    · cases tx
      · simp [run_download, State.load]
      · simp [transaction_download, h, run_download, State.load]
  exact ⟨h, by rw [h]; simp⟩

/-- Claim C1 witness: a concrete failed download (fresh world, default
options, external transaction fails) ends with committed status
"downloading" and not "complete". -/
theorem C1_failed_download_leaves_downloading_witness :
    (State.load (downloadPhase fsEmpty optsDefault "40" "39" false []).fst).download_status
      = some "downloading" ∧
    (State.load (downloadPhase fsEmpty optsDefault "40" "39" false []).fst).download_status
      ≠ some "complete" :=
  C1_failed_download_leaves_downloading fsEmpty optsDefault "40" "39" false []
    (by decide) (Or.inl rfl)

-- ===========================================================================
-- Claim C2 — scoped state handle commits only on clean exit
-- ===========================================================================

/-- Claim C2: the scoped state handle commits the mutated record exactly
when the scoped block exits cleanly, and commits nothing when the block
exits with an exception: for every persisted file content, every
sequence of property mutations inside the scope, and every exception,
an exceptional exit leaves the persisted record exactly as it was before
the scope was entered, while a clean exit persists the mutated record. -/
theorem C2_scoped_commit_iff_clean_exit (file : Option StateData)
    (muts : List Mut) (e : PyExc) :
    withState file muts (some e) = file ∧
    withState file muts none = some (muts.foldl applyMut (file.getD State.empty)) :=
  ⟨rfl, rfl⟩

-- ===========================================================================
-- Claim C3 — state commit is not atomic (truncate then write)
-- ===========================================================================

/-- Claim C3 counterexample.  The claim states that State.write commits
atomically (write-temp-then-rename or equivalent) so an interruption
mid-write can never leave a torn state file.  This is false: write opens
the state file with mode "w", truncating it in place, then dumps the
record; interrupting between those steps leaves empty content, which is
neither the old record ("a") nor the new one ("b") — a torn file. -/
theorem C3_truncating_write_leaves_torn_file :
    some "" ∈ State.writeSteps (some "a") "b" ∧
    some "" ≠ some "a" ∧ some "" ≠ (some "b" : Option String) := by
  decide

/-- Claim C3 (amended): State.write truncates the state file in place
and then writes the record, with no temp-file-and-rename; for every
non-empty old content and non-empty new content, the interruption point
between truncation and the completed write exposes on-disk content
(empty) that is neither the old nor the new record, i.e. a torn file. -/
theorem C3_write_not_atomic (old : Option String) (new : String)
    (h1 : old ≠ some "") (h2 : new ≠ "") :
    some "" ∈ State.writeSteps old new ∧
    some "" ≠ old ∧ some "" ≠ some new := by
  refine ⟨?_, fun h => h1 h.symm, fun h => h2 (Option.some.inj h).symm⟩
  simp [State.writeSteps]

/-- Claim C3 witness: concrete old content "x", new content "y". -/
theorem C3_write_not_atomic_witness :
    some "" ∈ State.writeSteps (some "x") "y" ∧
    some "" ≠ some "x" ∧ some "" ≠ (some "y" : Option String) :=
  C3_write_not_atomic (some "x") "y" (by decide) (by decide)

-- ===========================================================================
-- Claim C4 — guard totality
-- ===========================================================================

/-- Claim C4 counterexample.  The claim states that every phase guard
either allows the phase or denies it with a classified reason, never
raising an unclassified error — in particular the upgrade guard with
upgrade.status == "ready" but no marker present.  This is false: in
exactly that combination check_upgrade calls os.readlink(MAGIC_SYMLINK),
which raises an uncaught, unclassified OSError (modelled by
GuardResult.osError, which is neither allow, nor a classified CliError,
nor the quiet exit). -/
theorem C4_upgrade_guard_unclassified_error :
    check_upgrade readyNoMarker none = GuardResult.osError := by
  decide

/-- Claim C4 (amended): every phase guard is total — returning allow or
a specific classified deny, never an unclassified error — for every
(phase, state, marker) combination except one: the upgrade guard with
upgrade.status == "ready" and no marker present, where os.readlink
raises an unclassified OSError. -/
theorem C4_guards_total_outside_missing_marker (opts : Opts)
    (det rv : String) (w : FS) (s : StateData) (sym : Option String)
    (h : s.upgrade_status ≠ some "ready" ∨ sym ≠ none) :
    check_download opts det rv w ≠ GuardResult.osError ∧
    check_reboot s sym ≠ GuardResult.osError ∧
    check_upgrade s sym ≠ GuardResult.osError := by
  refine ⟨?_, ?_, ?_⟩
  · unfold check_download
    split
    · simp
    · split <;> simp
  · unfold check_reboot
    split
    · simp
    · split <;> simp
  · unfold check_upgrade
    split
    · simp
    · rename_i hready
      rw [not_not] at hready
      cases sym with
      | none =>
        rcases h with h | h
        · exact absurd hready h
        · exact absurd rfl h
      | some target =>
        split
        · rename_i heq
          exact absurd heq (by simp)
        · split <;> simp

/-- Claim C4 witness: the download guard at distinct release versions,
the reboot guard on the empty state, and the upgrade guard on the empty
state (not "ready", so readlink is never reached) all return classified
results. -/
theorem C4_guards_total_outside_missing_marker_witness :
    check_download optsDefault "39" "40" fsEmpty ≠ GuardResult.osError ∧
    check_reboot State.empty none ≠ GuardResult.osError ∧
    check_upgrade State.empty none ≠ GuardResult.osError :=
  C4_guards_total_outside_missing_marker optsDefault "39" "40" fsEmpty
    State.empty none (Or.inl (by decide))

-- ===========================================================================
-- Claim C5 — stale marker: quiet exit, no mutation
-- ===========================================================================

/-- Claim C5: for every world whose committed state has upgrade.status
== "ready" and whose marker exists with a target different from
download.datadir, the upgrade phase exits through the non-error quiet
path (SystemExit(0) raised by check_upgrade) and performs no mutation at
all: the returned world is exactly the input world — state file, marker,
flag file and directories untouched. -/
theorem C5_stale_marker_quiet_exit_no_mutation (w : FS) (t : String)
    (tx : Bool)
    (h1 : (State.load w).upgrade_status = some "ready")
    (h2 : w.symlink = some t)
    (h3 : ¬(some t = (State.load w).datadir)) :
    upgradePhase w tx = (w, Outcome.quietExit) := by
  unfold upgradePhase check_upgrade
  rw [h1, h2]
  simp [h3, Outcome.ofGuard]

/-- Claim C5 witness: a concrete world with committed status "ready",
datadir unset and a marker pointing at "/elsewhere" is returned
unchanged with the quiet-exit outcome. -/
theorem C5_stale_marker_quiet_exit_no_mutation_witness :
    upgradePhase staleWorld true = (staleWorld, Outcome.quietExit) :=
  C5_stale_marker_quiet_exit_no_mutation staleWorld "/elsewhere" true
    rfl rfl (by decide)

-- ===========================================================================
-- Claim C6 — marker/state coupling across the reboot boundary
-- ===========================================================================

/-- Claim C6: after a successful reboot phase (and just before the
restart call) the marker exists and its target equals the committed
download.datadir, the flag file contains RELEASEVER=releasever, and
upgrade.status == "ready" is committed; and once the upgrade phase
begins (its guard allows, so run_upgrade runs), the marker no longer
exists, regardless of whether the subsequent transaction succeeds or
fails. -/
theorem C6_marker_state_coupling (w w2 wu : FS) (rv : String) (tx : Bool)
    (hr : rebootPhase w = (w2, Outcome.success))
    (hv : (State.load w).releasever = some rv)
    (hu : check_upgrade (State.load wu) wu.symlink = GuardResult.allow) :
    (w2.symlink = (State.load w).datadir ∧ w2.symlink.isSome ∧
     w2.flagfile = some ("RELEASEVER=" ++ rv ++ "\n") ∧
     (State.load w2).upgrade_status = some "ready") ∧
    ((upgradePhase wu tx).fst).symlink = none := by
  constructor
  · unfold rebootPhase at hr
    split at hr
    · split at hr
      · exact absurd (congrArg Prod.snd hr) (by simp)
      · rename_i d hd
        have hw : w2 = { w with symlink := some d,
                                flagfile := some ("RELEASEVER=" ++ pyStr (State.load w).releasever ++ "\n"),
                                statefile := some { State.load w with upgrade_status := some "ready" } } :=
          (congrArg Prod.fst hr).symm
        subst hw
        refine ⟨by simp [hd], by simp, by simp [hv, pyStr], by simp [State.load]⟩
    · rename_i hne
      exfalso
      apply hne
      rw [← lem_ofGuard_success]
      exact congrArg Prod.snd hr
  · unfold upgradePhase
    rw [hu]
    cases tx
    · rfl
    · exact lem_run_clean_symlink _

/-- Claim C6 witness: the reboot phase run on a concrete world with a
complete download (datadir and releasever "40" committed, no marker)
succeeds and arms the marker at the datadir, writes the flag file, and
commits "ready"; and a concrete armed world beginning the upgrade phase
ends with no marker. -/
theorem C6_marker_state_coupling_witness :
    ((rebootPhase rebootReadyWorld).fst.symlink
        = (State.load rebootReadyWorld).datadir ∧
     (rebootPhase rebootReadyWorld).fst.symlink.isSome ∧
     (rebootPhase rebootReadyWorld).fst.flagfile
        = some ("RELEASEVER=" ++ "40" ++ "\n") ∧
     (State.load (rebootPhase rebootReadyWorld).fst).upgrade_status
        = some "ready") ∧
    ((upgradePhase armedWorld false).fst).symlink = none :=
  C6_marker_state_coupling rebootReadyWorld (rebootPhase rebootReadyWorld).fst
    armedWorld "40" false rfl rfl (by decide)

-- ===========================================================================
-- Claim C7 — the load contract
-- ===========================================================================

/-- Claim C7 counterexample.  The claim states that any read failure
other than absence, including a corrupt on-disk record, fails with
IOError rather than silently yielding an empty state.  This is false on
both counts: a corrupt record makes json.load raise ValueError (a
JSONDecodeError), not IOError, and a read that fails with an IOError
other than absence (e.g. permission denied) is caught by the except
IOError handler and silently yields the empty state. -/
theorem C7_read_failures_not_ioerror :
    State.readData FileRead.corrupt = ReadOutcome.raises PyExc.valueError ∧
    PyExc.valueError ≠ PyExc.ioError ∧
    State.readData FileRead.unreadable = ReadOutcome.ok State.empty := by
  decide

/-- Claim C7 (amended): loading returns the last committed state when
the state file is readable and valid, and the empty state whenever
opening or reading raises IOError — absence, but also any other IO
failure such as permission denied, which is silently swallowed; a
corrupt on-disk record fails with ValueError (json decode error), not
IOError. -/
theorem C7_load_contract (d : StateData) :
    State.readData (FileRead.valid d) = ReadOutcome.ok d ∧
    State.readData FileRead.absent = ReadOutcome.ok State.empty ∧
    State.readData FileRead.unreadable = ReadOutcome.ok State.empty ∧
    State.readData FileRead.corrupt = ReadOutcome.raises PyExc.valueError :=
  ⟨rfl, rfl, rfl, rfl⟩

-- ===========================================================================
-- Claim C8 — idempotent clean
-- ===========================================================================

/-- Claim C8: for every starting world, one run of the clean phase
removes the persisted state file and empties the recorded data
directory (when one is recorded and truthy), and a second run succeeds
and changes nothing: run_clean is idempotent. -/
theorem C8_clean_idempotent (w : FS) :
    (run_clean w).statefile = none ∧
    (∀ d, (State.load w).datadir = some d → d ≠ "" →
      (run_clean w).dirContents d = []) ∧
    run_clean (run_clean w) = run_clean w := by
  refine ⟨rfl, ?_, ?_⟩
  · intro d hd hne
    unfold run_clean
    simp only [hd, hne]
    simp
  · rfl

/-- Claim C8 witness: a concrete world with committed datadir "/data"
holding one package file: after clean the state file is gone and the
directory is empty, and a second clean is a no-op. -/
theorem C8_clean_idempotent_witness :
    (run_clean cleanStartWorld).statefile = none ∧
    (run_clean cleanStartWorld).dirContents "/data" = [] ∧
    run_clean (run_clean cleanStartWorld) = run_clean cleanStartWorld :=
  ⟨(C8_clean_idempotent cleanStartWorld).1,
   (C8_clean_idempotent cleanStartWorld).2.1 "/data" rfl (by decide),
   (C8_clean_idempotent cleanStartWorld).2.2⟩

-- ===========================================================================
-- Claim C9 — only the default datadir is created
-- ===========================================================================

/-- Download options whose datadir is the state file parent directory
"/var/lib/dnf" — a path different from DEFAULT_DATADIR. -/
def optsStateDir : Opts := { distro_sync := false, datadir := "/var/lib/dnf" }

/-- Claim C9 counterexample.  The claim states that for every
user-supplied datadir different from the default, run_download never
creates that directory.  This is false: the clean exit of the scoped
state handle runs State.write, whose
dnf.util.ensure_dir(os.path.dirname(self.statefile)) call (line 75)
creates "/var", "/var/lib" and "/var/lib/dnf" when missing.  Concrete
input: datadir = "/var/lib/dnf", which differs from DEFAULT_DATADIR and
does not exist in the fresh world, yet exists after run_download. -/
theorem C9_statefile_parent_datadir_created :
    optsStateDir.datadir ≠ DEFAULT_DATADIR ∧
    fsEmpty.pathExists "/var/lib/dnf" = false ∧
    (run_download State.empty fsEmpty optsStateDir "40").fst.pathExists "/var/lib/dnf"
      = true ∧
    (run_download State.empty fsEmpty optsStateDir "40").fst.isDir "/var/lib/dnf"
      = true := by
  decide

/-- Claim C9 (amended): run_download calls ensure_dir on the datadir
only when it equals the built-in DEFAULT_DATADIR, but its state commit
(State.write) also creates the state file parent directories "/var",
"/var/lib" and "/var/lib/dnf"; for every user-supplied datadir that
differs from the default and is none of those three parents,
run_download leaves that paths existence and directory status exactly
as they were, so such a nonexistent custom datadir stays nonexistent at
this layer. -/
theorem C9_nonparent_custom_datadir_never_created (s : StateData) (w : FS)
    (opts : Opts) (rv : String)
    (h : opts.datadir ≠ DEFAULT_DATADIR)
    (hp : ¬ opts.datadir ∈ statefileDirParents) :
    (run_download s w opts rv).fst.pathExists opts.datadir
      = w.pathExists opts.datadir ∧
    (run_download s w opts rv).fst.isDir opts.datadir
      = w.isDir opts.datadir := by
  have h3 : opts.datadir ≠ "/var" ∧ opts.datadir ≠ "/var/lib" ∧
      opts.datadir ≠ "/var/lib/dnf" := by
    simpa [statefileDirParents] using hp
  unfold run_download ensure_dirs statefileDirParents
  simp [ensure_dir, h, h3.1, h3.2.1, h3.2.2]

/-- Claim C9 witness: with the custom datadir "/custom" (neither the
default nor a state file parent) on a fresh world where it does not
exist, run_download leaves it nonexistent. -/
theorem C9_nonparent_custom_datadir_never_created_witness :
    (run_download State.empty fsEmpty optsCustom "40").fst.pathExists "/custom"
      = fsEmpty.pathExists "/custom" ∧
    (run_download State.empty fsEmpty optsCustom "40").fst.isDir "/custom"
      = fsEmpty.isDir "/custom" :=
  C9_nonparent_custom_datadir_never_created State.empty fsEmpty optsCustom "40"
    (by decide) (by decide)

-- ===========================================================================
-- Claim C10 — empty state reads are unset, guards deny without error
-- ===========================================================================

/-- Claim C10: on a freshly loaded empty state (no state file present,
State.load yields State.empty), every persisted property getter
(download.status, datadir, releasever, upgrade.status, distro-sync)
returns the unset value none and never raises; consequently every guard
comparison against an unset field evaluates to a classified deny rather
than an error: check_reboot and check_upgrade on the empty state return
CliError denials for every marker configuration. -/
theorem C10_empty_state_unset_fields_guards_deny :
    State.load fsEmpty = State.empty ∧
    State.empty.download_status = none ∧
    State.empty.datadir = none ∧
    State.empty.releasever = none ∧
    State.empty.upgrade_status = none ∧
    State.empty.distro_sync = none ∧
    (∀ sym, check_reboot State.empty sym
      = GuardResult.cliError GuardReason.notReadyForUpgrade) ∧
    (∀ sym, check_upgrade State.empty sym
      = GuardResult.cliError GuardReason.useRebootFirst) :=
  ⟨rfl, rfl, rfl, rfl, rfl, rfl, fun _ => rfl, fun _ => rfl⟩
